import Mathlib

/-!
Verification of the pgbouncer-k8s charm core: configuration rendering
(src/charm.py), and the backend-database relation lifecycle
(src/relations/backend_database.py).

The charm's container files, peer databags and juju secrets are modelled as an
explicit state record; each event handler is a state-transforming function
translated from the corresponding python handler.  Pooler configurations are
kept at parsed granularity (the spec fixes structural section/key/value
equality as the no-op criterion, and the ini renderer/parser of the pgb
library round-trip).
-/

set_option autoImplicit false

namespace PgbCharm

/-! ## Association-list primitives (python dict operations on string keys) -/

/-- Lookup of a key in an association list, python `d.get(k)`. -/
def alget (m : List (String × String)) (k : String) : Option String :=
  match m with
  | [] => none
  | (k1, v1) :: rest => if k1 = k then some v1 else alget rest k

/-- Update of a key in an association list, python `d[k] = v`: replaces the
first binding in place, appends when absent (insertion order preserved). -/
def alset (m : List (String × String)) (k v : String) : List (String × String) :=
  match m with
  | [] => [(k, v)]
  | (k1, v1) :: rest => if k1 = k then (k, v) :: rest else (k1, v1) :: alset rest k v

/-- Removal of a key from an association list, python `d.pop(k, None)`. -/
def alpop (m : List (String × String)) (k : String) : List (String × String) :=
  match m with
  | [] => []
  | (k1, v1) :: rest => if k1 = k then alpop rest k else (k1, v1) :: alpop rest k

/-! ## Constants (src/constants.py; the module is referenced from src/charm.py
and src/relations/backend_database.py) -/

def PGB : String := "pgbouncer"

def PG : String := "postgres"

def PGB_DIR : String := "/var/lib/postgresql/pgbouncer"

def INI_PATH : String := PGB_DIR ++ "/pgbouncer.ini"

/-- Path of the shared credential (auth) file inside the workload container;
`_on_relation_broken` deletes exactly this path (`PGB_DIR/userlist.txt`) and
`render_auth_file` writes it. -/
def AUTH_FILE_PATH : String := PGB_DIR ++ "/userlist.txt"

def MONITORING_PASSWORD_KEY : String := "monitoring_password"

def AUTH_FILE_DATABAG_KEY : String := "auth_file"

def BACKEND_RELATION_NAME : String := "backend-database"

/-! ## PgbConfig (charms.pgbouncer_k8s.v0.pgb.PgbConfig)

Modelled from the spec: ordered sections (global `[pgbouncer]` settings,
per-user entries, per-database entries) of mutable key/value pairs, with
structural section/key/value equality. -/

structure PgbConfig where
  pgbouncer : List (String × String)
  users : List (String × String)
  databases : List (String × String)
deriving DecidableEq, Repr

/-- Python truthiness of a config object (`if not config:` in `_init_config`):
an empty config is falsy. -/
def PgbConfig.truthy (c : PgbConfig) : Bool :=
  !(c.pgbouncer.isEmpty && c.users.isEmpty && c.databases.isEmpty)

/-- Modelled from the spec: the leader synthesizes a default config when none
exists (`pgb.DEFAULT_CONFIG`); socket reuse is enabled by default. -/
def defaultConfig : PgbConfig :=
  { pgbouncer := [("listen_port", "6432"), ("so_reuseport", "1")]
    users := []
    databases := [] }

/-- Adding a user entry to the config user list (`PgbConfig.add_user` of the
pgb library; stats users are recorded with mode "stats"). -/
def PgbConfig.addUser (c : PgbConfig) (user mode : String) : PgbConfig :=
  { c with users := alset c.users user mode }

/-- Removing a user entry from the config user list (`PgbConfig.remove_user`). -/
def PgbConfig.removeUser (c : PgbConfig) (user : String) : PgbConfig :=
  { c with users := alpop c.users user }

/-! ## Charm state

One record holding every piece of mutable state the translated handlers touch:
container files, peer databags, app secrets, the backend database side effects
and counters for persisted writes and restart signals. -/

structure CharmState where
  /-- Parsed contents of the canonical config file at INI_PATH (none: absent). -/
  iniFile : Option PgbConfig
  /-- Parsed contents of the per-instance config files, in instance order. -/
  instFiles : List PgbConfig
  /-- Canonical config blob held in the peer app databag (`peers.update_cfg`). -/
  peerCfg : Option PgbConfig
  /-- Contents of the credential file at AUTH_FILE_PATH (none: absent). -/
  authFile : Option String
  /-- Shared credential-file entry in peer state (`peers.update_auth_file`). -/
  peerAuthFile : Option String
  /-- App-scope secret storage (`peers.get_secret`/`set_secret`, scope "app"). -/
  secrets : List (String × String)
  /-- Local unit peer databag (holds the per-relation departing flags). -/
  unitDatabag : List (String × String)
  /-- Peer-databag user bookkeeping (`peers.remove_user`). -/
  peerUsers : List String
  /-- Published port per client relation databag (legacy db, db-admin and the
  client relation), written by `update_client_connection_info`. -/
  clientPorts : List (Option String)
  /-- Roles existing on the backend postgres database
  (`postgres.create_user` / `postgres.delete_user`). -/
  pgUsers : List String
  /-- Databases of the backend in which the auth function is installed
  (`initialise_auth_function` / `remove_auth_function`). -/
  authFnDbs : List String
  /-- Whether the monitoring exporter service is enabled
  (`toggle_monitoring_layer`). -/
  monitoringEnabled : Bool
  /-- Whether the unit was put into blocked status by a failed teardown. -/
  statusBlocked : Bool
  /-- Number of file pushes to the container so far (`push_file`). -/
  writeCount : Nat
  /-- Number of restart/reload signals issued so far (`reload_pgbouncer`). -/
  restartCount : Nat
deriving DecidableEq, Repr

/-- Event-independent inputs a handler reads but never writes: leadership,
core count, the juju app name and config, the backend relation databag and
unit counts, and the outcome of the external probes. -/
structure Inputs where
  isLeader : Bool
  cores : Nat
  charmApp : String
  listenPort : String
  /-- Whether the backend relation exists with a remote app databag. -/
  relPresent : Bool
  /-- Remote databag key "endpoints". -/
  endpoint : Option String
  /-- Remote databag key "username". -/
  username : Option String
  /-- Remote databag key "password". -/
  password : Option String
  /-- Local app databag key "database" on the backend relation. -/
  localDatabase : Option String
  /-- Result of `self.charm.app.planned_units()`. -/
  plannedUnits : Nat
  /-- Size of `self.charm.peers.relation.units`. -/
  peerUnits : Nat
  /-- Result of `check_pgb_running` (false also covers the ConnectionError
  branch: both defer). -/
  pgbRunning : Bool
  /-- Whether SQL execution against the backend succeeds (psycopg2 raises
  otherwise). -/
  sqlOk : Bool
deriving DecidableEq, Repr

/-- Python `str.replace("-", "_")` specialised to the dash character. -/
def replaceDash (s : String) : String :=
  String.mk (s.toList.map (fun c => if c = '-' then '_' else c))

/-- Whether the backend `postgres` property is non-None: the relation exists
and the remote databag supplies endpoints, username and password
(src/relations/backend_database.py, property `postgres`). -/
def postgresPresent (inp : Inputs) : Bool :=
  inp.relPresent && inp.endpoint.isSome && inp.username.isSome && inp.password.isSome

/-- Auth-user name derived from the relation username (property `auth_user`). -/
def authUserName (user : String) : String :=
  replaceDash ("pgbouncer_auth_" ++ user)

/-- Stats/monitoring user name derived from the app name (property `stats_user`). -/
def statsUserName (app : String) : String :=
  replaceDash ("pgbouncer_stats_" ++ app)

/-! ## Service instances and per-instance configs (src/charm.py) -/

/-- Working directory of service instance i (`PGB_DIR/instance_i`). -/
def instDir (i : Nat) : String := PGB_DIR ++ "/instance_" ++ toString i

/-- Log directory of service instance i. -/
def instLogDir (i : Nat) : String := "/var/log/pgbouncer/instance_" ++ toString i

/-- One supervised pooler service entry, as built in PgBouncerK8sCharm.__init__. -/
structure Service where
  name : String
  id : Nat
  dir : String
  iniPath : String
  logDir : String
deriving DecidableEq, Repr

/-- The declared pooler service instances: one per detected CPU core, built
once at process start (`self._services` in PgBouncerK8sCharm.__init__) and
never mutated afterwards. -/
def services (cores : Nat) : List Service :=
  (List.range cores).map (fun i =>
    { name := PGB ++ "_" ++ toString i
      id := i
      dir := instDir i
      iniPath := instDir i ++ "/pgbouncer.ini"
      logDir := instLogDir i })

/-- Per-instance config derivation inside `render_pgb_config`: a copy of the
canonical config with only unix_socket_dir, logfile and pidfile overridden. -/
def perInstanceCfg (cfg : PgbConfig) (i : Nat) : PgbConfig :=
  let m1 := alset cfg.pgbouncer "unix_socket_dir" (instDir i)
  let m2 := alset m1 "logfile" (instLogDir i ++ "/pgbouncer.log")
  let m3 := alset m2 "pidfile" (instDir i ++ "/pgbouncer.pid")
  { cfg with pgbouncer := m3 }

/-- Modelled from the spec: `peers.update_cfg` (src/relations/peers.py is not
in the analysed tree) publishes the canonical config blob to the peer app
databag, and only the leader may write shared state. -/
def peersUpdateCfg (inp : Inputs) (cfg : PgbConfig) (st : CharmState) : CharmState :=
  if inp.isLeader then { st with peerCfg := some cfg } else st

/-- Translation of `PgBouncerK8sCharm.render_pgb_config`: skip everything when
the parsed canonical file already equals the new config; otherwise publish to
peers, push one per-instance file per service plus the canonical file, and
issue a restart signal when `reload_pgbouncer` is set. -/
def render_pgb_config (inp : Inputs) (cfg : PgbConfig) (reload : Bool)
    (st : CharmState) : CharmState :=
  if st.iniFile = some cfg then st
  else
    let st1 := peersUpdateCfg inp cfg st
    let st2 := { st1 with
      instFiles := (List.range inp.cores).map (perInstanceCfg cfg)
      iniFile := some cfg
      writeCount := st1.writeCount + inp.cores + 1 }
    if reload then { st2 with restartCount := st2.restartCount + 1 } else st2

/-! ## Basic lemmas about the association-list primitives -/

theorem alget_alset (m : List (String × String)) (k v k1 : String) :
    alget (alset m k v) k1 = if k = k1 then some v else alget m k1 := by
  induction m with
  | nil =>
    by_cases h : k = k1 <;> simp [alget, alset, h]
  | cons p rest ih =>
    obtain ⟨pk, pv⟩ := p
    by_cases hpk : pk = k
    · by_cases h : k = k1 <;> simp [alget, alset, hpk, h]
    · by_cases h : pk = k1
      · subst h
        have hk : ¬ k = pk := fun hc => hpk hc.symm
        simp [alget, alset, hpk, hk]
      · simp [alget, alset, hpk, h, ih]

theorem alget_alpop (m : List (String × String)) (k k1 : String) :
    alget (alpop m k) k1 = if k = k1 then none else alget m k1 := by
  induction m with
  | nil => by_cases h : k = k1 <;> simp [alget, alpop, h]
  | cons p rest ih =>
    obtain ⟨pk, pv⟩ := p
    by_cases hpk : pk = k
    · subst hpk
      by_cases h : pk = k1
      · subst h
        simpa [alget, alpop] using ih
      · simpa [alget, alpop, h] using ih
    · by_cases h : pk = k1
      · subst h
        have hk : ¬ k = pk := fun hc => hpk hc.symm
        simp [alget, alpop, hpk, hk]
      · simp [alget, alpop, hpk, h, ih]

/-! ## Claim C1: idempotent render -/

/-- C1. Applying/rendering a config is idempotent: when the persisted
canonical config already equals C, `render_pgb_config` is a no-op (no file
written, no peer update, no restart signal — the state is unchanged), and a
second consecutive apply of the same C equals the first (hence performs no
additional persisted write and no restart signal). -/
theorem render_pgb_config_idempotent (inp : Inputs) (cfg : PgbConfig)
    (r r1 : Bool) (st : CharmState) :
    (st.iniFile = some cfg → render_pgb_config inp cfg r st = st) ∧
    render_pgb_config inp cfg r1 (render_pgb_config inp cfg r st) =
      render_pgb_config inp cfg r st := by
  constructor
  · intro h
    simp [render_pgb_config, h]
  · have hini : (render_pgb_config inp cfg r st).iniFile = some cfg := by
      by_cases h : st.iniFile = some cfg
      · simp [render_pgb_config, h]
      · unfold render_pgb_config peersUpdateCfg
        by_cases hl : inp.isLeader <;> by_cases hr : r <;> simp [h, hl, hr]
    have key : ∀ s : CharmState, s.iniFile = some cfg →
        render_pgb_config inp cfg r1 s = s := by
      intro s hs
      simp [render_pgb_config, hs]
    exact key _ hini

/-- Witness for C1 at a concrete state whose canonical file already holds the
config, checking both the no-op branch and the repeated-apply equality. -/
theorem render_pgb_config_idempotent_witness :
    (render_pgb_config
        { isLeader := true, cores := 2, charmApp := "pgbouncer-k8s",
          listenPort := "6432", relPresent := false, endpoint := none,
          username := none, password := none, localDatabase := none,
          plannedUnits := 0, peerUnits := 0, pgbRunning := true, sqlOk := true }
        defaultConfig true
        { iniFile := some defaultConfig, instFiles := [], peerCfg := none,
          authFile := none, peerAuthFile := none, secrets := [],
          unitDatabag := [], peerUsers := [], clientPorts := [],
          pgUsers := [], authFnDbs := [], monitoringEnabled := false,
          statusBlocked := false, writeCount := 0, restartCount := 0 } =
      { iniFile := some defaultConfig, instFiles := [], peerCfg := none,
        authFile := none, peerAuthFile := none, secrets := [],
        unitDatabag := [], peerUsers := [], clientPorts := [],
        pgUsers := [], authFnDbs := [], monitoringEnabled := false,
        statusBlocked := false, writeCount := 0, restartCount := 0 }) := by
  exact (render_pgb_config_idempotent _ defaultConfig true true _).1 rfl

/-! ## Relation-independent update helpers called by the handlers -/

/-- Translation of `PgBouncerK8sCharm.update_client_connection_info`: skipped
entirely while `backend.postgres` is None; otherwise every client-facing
relation databag ends up holding the current listen port (the missing
per-relation modules write it, skipping relations already holding it, which
leaves the same resulting state). -/
def update_client_connection_info (inp : Inputs) (st : CharmState) : CharmState :=
  if !(postgresPresent inp) then st
  else { st with clientPorts := st.clientPorts.map (fun _ => some inp.listenPort) }

/-- Modelled from the spec: the per-relation handlers refresh the canonical
config's backend-endpoint fields from the relation record (the db,
db-admin and client relation modules are not in the analysed tree). -/
def refreshEndpoints (endpoint : String) (cfg : PgbConfig) : PgbConfig :=
  { cfg with databases := alset cfg.databases "endpoints" endpoint }

/-- Translation of `PgBouncerK8sCharm.update_postgres_endpoints`: skipped
when `backend.postgres` is None or the unit is not the leader; otherwise the
canonical config's endpoint fields are refreshed and re-rendered, and a
restart signal is issued when `reload_pgbouncer` is set. -/
def update_postgres_endpoints (inp : Inputs) (reload : Bool)
    (st : CharmState) : CharmState :=
  if !(postgresPresent inp) || !inp.isLeader then st
  else
    let st1 := match st.iniFile, inp.endpoint with
      | some cfg, some ep => render_pgb_config inp (refreshEndpoints ep cfg) false st
      | _, _ => st
    if reload then { st1 with restartCount := st1.restartCount + 1 } else st1

/-- Departing flag key for a backend relation id, as written to the local
unit peer databag by `_on_relation_departed`. -/
def departFlag (relId : Nat) : String :=
  BACKEND_RELATION_NAME ++ "_" ++ toString relId ++ "_departing"

/-- Python truthiness of `unit_databag.get(flag, False)`: a present non-empty
string is truthy. -/
def flagTruthy (m : List (String × String)) (k : String) : Bool :=
  match alget m k with
  | some s => !(s = "")
  | none => false

/-! ## Backend relation event handlers (src/relations/backend_database.py) -/

/-- Identity of the departing unit as seen by a relation-departed event. -/
structure DepartedEvent where
  relationId : Nat
  /-- Whether `event.departing_unit == self.charm.unit`. -/
  departingIsLocal : Bool
  /-- Name of `event.departing_unit.app`. -/
  departingApp : String
deriving DecidableEq, Repr

/-- Translation of `BackendDatabaseRequires._on_relation_departed`.  First the
unconditional refresh of client connection info and postgres endpoints; a
departing local unit records the per-relation departing flag and returns;
then only a leader observing a unit of its own application proceeds, skips
revocation when the planned-unit count signals a scale-down (0 < planned <
current peer units), and otherwise removes the auth function from the
pgbouncer and postgres databases and deletes the auth user (a failing SQL
teardown sets blocked status and leaves the user in place). -/
def onRelationDeparted (inp : Inputs) (ev : DepartedEvent)
    (st : CharmState) : CharmState :=
  let st0 := update_postgres_endpoints inp true (update_client_connection_info inp st)
  if ev.departingIsLocal then
    { st0 with unitDatabag := alset st0.unitDatabag (departFlag ev.relationId) "true" }
  else if !inp.isLeader || !(ev.departingApp = inp.charmApp) then st0
  else if inp.plannedUnits < inp.peerUnits && !(inp.plannedUnits = 0) then st0
  else if !inp.sqlOk then { st0 with statusBlocked := true }
  else
    let au := authUserName ((inp.username).getD "")
    { st0 with
      authFnDbs := st0.authFnDbs.filter (fun d => !(d = PGB) && !(d = PG))
      pgUsers := st0.pgUsers.filter (fun u => !(u = au))
      peerUsers := st0.peerUsers.filter (fun u => !(u = au)) }

/-- Translation of `BackendDatabaseRequires._on_relation_broken`: the
monitoring exporter is always disabled first; a previously set departing flag
for the relation, or not being the leader, ends the handler there; an
unreadable config defers; otherwise the relation user entry and the
auth_user, auth_query and auth_file keys are stripped from the canonical
config, which is re-rendered, the credential file at AUTH_FILE_PATH is
deleted and the shared credential-file entry is cleared. -/
def onRelationBroken (inp : Inputs) (relId : Nat) (st : CharmState) : CharmState :=
  let st0 := { st with monitoringEnabled := false }
  if flagTruthy st0.unitDatabag (departFlag relId) || !inp.isLeader then st0
  else
    match st0.iniFile with
    | none => st0
    | some cfg =>
      let cfg1 := (cfg.removeUser ((inp.username).getD ""))
      let cfg2 := { cfg1 with
        pgbouncer := alpop (alpop (alpop cfg1.pgbouncer "auth_user") "auth_query") "auth_file" }
      let st1 := render_pgb_config inp cfg2 false st0
      { st1 with authFile := none, peerAuthFile := none }

/-- Monitoring-password provisioning step of `_on_database_created`: consult
the peer-shared secret storage first; only when no value is stored under the
monitoring-password key is the freshly generated password stored and used. -/
def monitoringPasswordStep (secrets : List (String × String)) (fresh : String) :
    String × List (String × String) :=
  match alget secrets MONITORING_PASSWORD_KEY with
  | some v => (v, secrets)
  | none => (fresh, alset secrets MONITORING_PASSWORD_KEY fresh)

/-- Modelled from the spec: deterministic password hash usable by the
backend's challenge mechanism (`pgb.get_hashed_password(username, password)`;
the md5 computation itself is an external detail). -/
def get_hashed_password (user pw : String) : String :=
  "md5" ++ pw ++ user

/-- One line of the credential file, format `"username" "hashed_password"`. -/
def credLine (u h : String) : String :=
  "\"" ++ u ++ "\" \"" ++ h ++ "\""

/-- Outcome of an event handler run: completed, deferred for retry, skipped
(wrong unit), or aborted by an uncaught exception. -/
inductive HookOutcome where
  | completed
  | deferred
  | skipped
  | errored
deriving DecidableEq, Repr

/-- Credential-file content produced by `_on_database_created`: one line for
the auth-bridging user hashed with the freshly generated password, one line
for the monitoring user hashed with the stored-or-fresh monitoring password. -/
def createdAuthFileContent (inp : Inputs) (freshPw freshMonPw : String)
    (secrets : List (String × String)) : String :=
  credLine (authUserName ((inp.username).getD ""))
      (get_hashed_password (authUserName ((inp.username).getD "")) freshPw)
    ++ "\n"
    ++ credLine (statsUserName inp.charmApp)
      (get_hashed_password (statsUserName inp.charmApp)
        (monitoringPasswordStep secrets freshMonPw).1)

/-- Canonical-config update performed by `_on_database_created` after the
stats user was added: the pgbouncer section gains the auth_query for the
auth-bridging user's lookup function and the auth_file path. -/
def createdConfigUpdate (cfg1 : PgbConfig) (au : String) : PgbConfig :=
  { cfg1 with
    pgbouncer := alset (alset cfg1.pgbouncer
      "auth_query"
      ("SELECT username, password FROM " ++ au ++ ".get_auth($1)"))
      "auth_file" AUTH_FILE_PATH }

/-- Translation of `BackendDatabaseRequires._on_database_created`: only the
leader acts; the event is deferred while the pooler services are not
reported running (or pebble is unreachable) and while the postgres data or
the requested database name is absent; on success the auth user is created
with the auth function in the pgbouncer and postgres databases, the
monitoring password is taken from the secret store or freshly stored, the
two-line credential file is written, shared to the peer databag and the
secret store, the canonical config gains the stats user plus the auth_query
and auth_file keys and is re-rendered, endpoints are refreshed with a
restart, and monitoring is enabled.  The user-creation and auth-function SQL
runs uncaught here, so a failing backend raises (errored), as does a missing
canonical config at the read point — the latter after the credential writes
already happened. -/
def onDatabaseCreated (inp : Inputs) (freshPw freshMonPw : String)
    (st : CharmState) : HookOutcome × CharmState :=
  if !inp.isLeader then (HookOutcome.skipped, st)
  else if !inp.pgbRunning then (HookOutcome.deferred, st)
  else if !(postgresPresent inp) || (inp.localDatabase).isNone then
    (HookOutcome.deferred, st)
  else if !inp.sqlOk then (HookOutcome.errored, st)
  else
    let au := authUserName ((inp.username).getD "")
    let su := statsUserName inp.charmApp
    let af := createdAuthFileContent inp freshPw freshMonPw st.secrets
    let st2 := { st with
      pgUsers := au :: st.pgUsers
      authFnDbs := PGB :: PG :: st.authFnDbs
      secrets := alset (monitoringPasswordStep st.secrets freshMonPw).2
        AUTH_FILE_DATABAG_KEY af
      authFile := some af
      peerAuthFile := some af
      writeCount := st.writeCount + 1 }
    match st.iniFile with
    | none => (HookOutcome.errored, st2)
    | some cfg =>
      let cfg2 := createdConfigUpdate (cfg.addUser su "stats") au
      let st3 := render_pgb_config inp cfg2 false st2
      let st4 := update_postgres_endpoints inp true st3
      (HookOutcome.completed, { st4 with monitoringEnabled := true })

/-! ## Frame lemmas: fields the update helpers never touch -/

theorem render_frame (inp : Inputs) (cfg : PgbConfig) (r : Bool)
    (st : CharmState) :
    (render_pgb_config inp cfg r st).authFile = st.authFile ∧
    (render_pgb_config inp cfg r st).peerAuthFile = st.peerAuthFile ∧
    (render_pgb_config inp cfg r st).secrets = st.secrets ∧
    (render_pgb_config inp cfg r st).unitDatabag = st.unitDatabag ∧
    (render_pgb_config inp cfg r st).peerUsers = st.peerUsers ∧
    (render_pgb_config inp cfg r st).clientPorts = st.clientPorts ∧
    (render_pgb_config inp cfg r st).pgUsers = st.pgUsers ∧
    (render_pgb_config inp cfg r st).authFnDbs = st.authFnDbs ∧
    (render_pgb_config inp cfg r st).monitoringEnabled = st.monitoringEnabled ∧
    (render_pgb_config inp cfg r st).statusBlocked = st.statusBlocked := by
  unfold render_pgb_config peersUpdateCfg
  by_cases h : st.iniFile = some cfg <;> by_cases hl : inp.isLeader <;>
    by_cases hr : r <;> simp [h, hl, hr]

theorem update_client_frame (inp : Inputs) (st : CharmState) :
    (update_client_connection_info inp st).iniFile = st.iniFile ∧
    (update_client_connection_info inp st).authFile = st.authFile ∧
    (update_client_connection_info inp st).peerAuthFile = st.peerAuthFile ∧
    (update_client_connection_info inp st).secrets = st.secrets ∧
    (update_client_connection_info inp st).unitDatabag = st.unitDatabag ∧
    (update_client_connection_info inp st).peerUsers = st.peerUsers ∧
    (update_client_connection_info inp st).pgUsers = st.pgUsers ∧
    (update_client_connection_info inp st).authFnDbs = st.authFnDbs ∧
    (update_client_connection_info inp st).monitoringEnabled = st.monitoringEnabled ∧
    (update_client_connection_info inp st).statusBlocked = st.statusBlocked := by
  unfold update_client_connection_info
  by_cases h : postgresPresent inp <;> simp [h]

theorem update_endpoints_frame (inp : Inputs) (r : Bool) (st : CharmState) :
    (update_postgres_endpoints inp r st).authFile = st.authFile ∧
    (update_postgres_endpoints inp r st).peerAuthFile = st.peerAuthFile ∧
    (update_postgres_endpoints inp r st).secrets = st.secrets ∧
    (update_postgres_endpoints inp r st).unitDatabag = st.unitDatabag ∧
    (update_postgres_endpoints inp r st).peerUsers = st.peerUsers ∧
    (update_postgres_endpoints inp r st).clientPorts = st.clientPorts ∧
    (update_postgres_endpoints inp r st).pgUsers = st.pgUsers ∧
    (update_postgres_endpoints inp r st).authFnDbs = st.authFnDbs ∧
    (update_postgres_endpoints inp r st).monitoringEnabled = st.monitoringEnabled ∧
    (update_postgres_endpoints inp r st).statusBlocked = st.statusBlocked := by
  unfold update_postgres_endpoints
  by_cases h : postgresPresent inp
  · by_cases hl : inp.isLeader
    · cases hini : st.iniFile with
      | none =>
        by_cases hr : r <;> simp [h, hl, hini, hr]
      | some cfg =>
        cases hep : inp.endpoint with
        | none => by_cases hr : r <;> simp [h, hl, hini, hep, hr]
        | some ep =>
          have hf := render_frame inp (refreshEndpoints ep cfg) false st
          by_cases hr : r <;>
            simp [h, hl, hini, hep, hr, hf.1, hf.2.1, hf.2.2.1, hf.2.2.2.1,
              hf.2.2.2.2.1, hf.2.2.2.2.2.1, hf.2.2.2.2.2.2.1,
              hf.2.2.2.2.2.2.2.1, hf.2.2.2.2.2.2.2.2.1, hf.2.2.2.2.2.2.2.2.2]
    · simp [h, hl]
  · simp [h]

/-- Rendering always leaves the canonical file holding exactly the rendered
config: the skip branch presupposes it, the write branch establishes it. -/
theorem render_iniFile (inp : Inputs) (cfg : PgbConfig) (r : Bool)
    (st : CharmState) :
    (render_pgb_config inp cfg r st).iniFile = some cfg := by
  by_cases h : st.iniFile = some cfg
  · simp [render_pgb_config, h]
  · unfold render_pgb_config peersUpdateCfg
    by_cases hl : inp.isLeader <;> by_cases hr : r <;> simp [h, hl, hr]

/-- Combined frame for the two refresh calls that open every
relation-departed run: they never touch the auth artifacts, the databags
other than client connection data, or the monitoring service. -/
theorem departed_prefix_frame (inp : Inputs) (st : CharmState) :
    (update_postgres_endpoints inp true (update_client_connection_info inp st)).pgUsers = st.pgUsers ∧
    (update_postgres_endpoints inp true (update_client_connection_info inp st)).authFnDbs = st.authFnDbs ∧
    (update_postgres_endpoints inp true (update_client_connection_info inp st)).authFile = st.authFile ∧
    (update_postgres_endpoints inp true (update_client_connection_info inp st)).peerAuthFile = st.peerAuthFile ∧
    (update_postgres_endpoints inp true (update_client_connection_info inp st)).secrets = st.secrets ∧
    (update_postgres_endpoints inp true (update_client_connection_info inp st)).unitDatabag = st.unitDatabag ∧
    (update_postgres_endpoints inp true (update_client_connection_info inp st)).peerUsers = st.peerUsers ∧
    (update_postgres_endpoints inp true (update_client_connection_info inp st)).monitoringEnabled = st.monitoringEnabled ∧
    (update_postgres_endpoints inp true (update_client_connection_info inp st)).statusBlocked = st.statusBlocked := by
  obtain ⟨c1, c2, c3, c4, c5, c6, c7, c8, c9, c10⟩ := update_client_frame inp st
  obtain ⟨e1, e2, e3, e4, e5, e6, e7, e8, e9, e10⟩ :=
    update_endpoints_frame inp true (update_client_connection_info inp st)
  exact ⟨e7.trans c7, e8.trans c8, e1.trans c2, e2.trans c3, e3.trans c4,
    e4.trans c5, e5.trans c6, e9.trans c9, e10.trans c10⟩

/-! ## Claim C2: scale-down disambiguation on backend relation-departed -/

/-- C2. Scale-down disambiguation: when the leader handles a departing unit
of its peer group (not the local unit) with planned-unit count P and current
peer-group unit count C, the case 0 < P < C returns without revoking
anything — postgres users, installed auth functions, the credential file and
its shared peer entry are untouched; the case P = 0 (or P ≥ C) removes the
auth function from the target databases (pgbouncer and postgres) and deletes
the auth user, within this very handler and hence before relation-broken
runs. -/
theorem departed_scale_down_disambiguation (inp : Inputs) (ev : DepartedEvent)
    (st : CharmState) (hl : inp.isLeader = true)
    (hnl : ev.departingIsLocal = false)
    (happ : ev.departingApp = inp.charmApp) :
    (0 < inp.plannedUnits → inp.plannedUnits < inp.peerUnits →
      (onRelationDeparted inp ev st).pgUsers = st.pgUsers ∧
      (onRelationDeparted inp ev st).authFnDbs = st.authFnDbs ∧
      (onRelationDeparted inp ev st).authFile = st.authFile ∧
      (onRelationDeparted inp ev st).peerAuthFile = st.peerAuthFile ∧
      (onRelationDeparted inp ev st).secrets = st.secrets) ∧
    (inp.sqlOk = true →
      (inp.plannedUnits = 0 ∨ inp.peerUnits ≤ inp.plannedUnits) →
      (onRelationDeparted inp ev st).authFnDbs =
        st.authFnDbs.filter (fun d => !(d = PGB) && !(d = PG)) ∧
      (onRelationDeparted inp ev st).pgUsers =
        st.pgUsers.filter (fun u => !(u = authUserName ((inp.username).getD "")))) := by
  obtain ⟨f1, f2, f3, f4, f5, f6, f7, f8, f9⟩ := departed_prefix_frame inp st
  constructor
  · intro hp hc
    have hcond : (inp.plannedUnits < inp.peerUnits ∧ ¬(inp.plannedUnits = 0)) := by
      exact ⟨hc, Nat.pos_iff_ne_zero.mp hp⟩
    simp only [onRelationDeparted, hnl, hl, happ]
    simp [hcond.1, hcond.2, f1, f2, f3, f4, f5]
  · intro hsql hor
    have hcond : ¬(inp.plannedUnits < inp.peerUnits ∧ ¬(inp.plannedUnits = 0)) := by
      rcases hor with h0 | hge
      · exact fun hx => hx.2 h0
      · exact fun hx => absurd hx.1 (Nat.not_lt.mpr hge)
    simp only [onRelationDeparted, hnl, hl, happ]
    by_cases hlt : inp.plannedUnits < inp.peerUnits
    · have h0 : inp.plannedUnits = 0 := by
        by_contra hne
        exact hcond ⟨hlt, hne⟩
      simp [hlt, h0, hsql, f1, f2]
    · simp [hlt, hsql, f1, f2]

/-- Witness for C2: with P = 1, C = 2 (scale-down) the existing postgres
users survive the handler, and with P = 0 the auth user is deleted and the
auth function removed. -/
theorem departed_scale_down_disambiguation_witness :
    (onRelationDeparted
        { isLeader := true, cores := 1, charmApp := "pgbouncer-k8s",
          listenPort := "6432", relPresent := true,
          endpoint := some "pg:5432", username := some "u5",
          password := some "p", localDatabase := some "pgbouncer",
          plannedUnits := 1, peerUnits := 2, pgbRunning := true,
          sqlOk := true }
        { relationId := 3, departingIsLocal := false,
          departingApp := "pgbouncer-k8s" }
        { iniFile := none, instFiles := [], peerCfg := none,
          authFile := some "af", peerAuthFile := some "af", secrets := [],
          unitDatabag := [], peerUsers := [], clientPorts := [],
          pgUsers := ["pgbouncer_auth_u5"], authFnDbs := [PGB, PG],
          monitoringEnabled := true, statusBlocked := false,
          writeCount := 0, restartCount := 0 }).pgUsers =
      ["pgbouncer_auth_u5"] :=
  ((departed_scale_down_disambiguation _ _ _ rfl rfl rfl).1
    (by decide) (by decide)).1

/-! ## Claim C3: relation-departed for the local replica -/

/-- Concrete follower state with one client relation whose published port is
stale: the departed handler's opening refresh rewrites that databag. -/
def staleClientInputs : Inputs :=
  { isLeader := false, cores := 1, charmApp := "pgbouncer-k8s",
    listenPort := "6432", relPresent := true, endpoint := some "pg:5432",
    username := some "u5", password := some "p",
    localDatabase := some "pgbouncer", plannedUnits := 1, peerUnits := 1,
    pgbRunning := true, sqlOk := true }

def staleClientState : CharmState :=
  { iniFile := none, instFiles := [], peerCfg := none, authFile := none,
    peerAuthFile := none, secrets := [], unitDatabag := [], peerUsers := [],
    clientPorts := [some "5432"], pgUsers := [], authFnDbs := [],
    monitoringEnabled := false, statusBlocked := false, writeCount := 0,
    restartCount := 0 }

def localDepartedEvent : DepartedEvent :=
  { relationId := 7, departingIsLocal := true,
    departingApp := "pgbouncer-k8s" }

/-- Counterexample to C3 as stated: with the local unit departing, the
handler does set the per-relation departing flag, but it does not exit
without other side effects — the unconditional connection-info refresh that
opens the handler rewrites the stale client relation databag, so the
resulting state differs from the initial one beyond the flag. -/
theorem departed_local_no_side_effects_counterexample :
    alget (onRelationDeparted staleClientInputs localDepartedEvent
        staleClientState).unitDatabag (departFlag 7) = some "true" ∧
    (onRelationDeparted staleClientInputs localDepartedEvent
        staleClientState).clientPorts ≠ staleClientState.clientPorts := by
  decide

/-- C3 (amended): when the departing unit is the local replica, the handler
runs the unconditional refresh of client connection info and postgres
endpoints that opens every relation-departed run (which may rewrite client
relation databags and re-render endpoint fields when they are stale), then
sets the per-relation departing flag in the local unit peer databag and
returns; it touches neither the credential file, its shared peer entry, the
secret storage, the postgres users and auth functions, nor the monitoring
service. -/
theorem departed_local_flag (inp : Inputs) (ev : DepartedEvent)
    (st : CharmState) (h : ev.departingIsLocal = true) :
    onRelationDeparted inp ev st =
      { update_postgres_endpoints inp true (update_client_connection_info inp st) with
        unitDatabag :=
          alset (update_postgres_endpoints inp true
              (update_client_connection_info inp st)).unitDatabag
            (departFlag ev.relationId) "true" } ∧
    flagTruthy (onRelationDeparted inp ev st).unitDatabag
      (departFlag ev.relationId) = true ∧
    (onRelationDeparted inp ev st).pgUsers = st.pgUsers ∧
    (onRelationDeparted inp ev st).authFnDbs = st.authFnDbs ∧
    (onRelationDeparted inp ev st).authFile = st.authFile ∧
    (onRelationDeparted inp ev st).peerAuthFile = st.peerAuthFile ∧
    (onRelationDeparted inp ev st).secrets = st.secrets ∧
    (onRelationDeparted inp ev st).monitoringEnabled = st.monitoringEnabled := by
  obtain ⟨f1, f2, f3, f4, f5, f6, f7, f8, f9⟩ := departed_prefix_frame inp st
  refine ⟨by simp [onRelationDeparted, h], ?_, ?_⟩
  · simp [onRelationDeparted, h, flagTruthy, alget_alset]
  · simp [onRelationDeparted, h, f1, f2, f3, f4, f5, f8]

/-- Witness for the amended C3 at the concrete stale-client state. -/
theorem departed_local_flag_witness :
    flagTruthy (onRelationDeparted staleClientInputs localDepartedEvent
        staleClientState).unitDatabag (departFlag 7) = true ∧
    (onRelationDeparted staleClientInputs localDepartedEvent
        staleClientState).pgUsers = staleClientState.pgUsers :=
  ⟨(departed_local_flag staleClientInputs localDepartedEvent staleClientState
      rfl).2.1,
   (departed_local_flag staleClientInputs localDepartedEvent staleClientState
      rfl).2.2.1⟩

/-! ## Claim C4: gate of the revocation path on relation-departed -/

/-- Concrete leader state observing a unit of the backend application
departing while the backend plans zero units. -/
def backendDepartInputs : Inputs :=
  { isLeader := true, cores := 1, charmApp := "pgbouncer-k8s",
    listenPort := "6432", relPresent := true, endpoint := some "pg:5432",
    username := some "u5", password := some "p",
    localDatabase := some "pgbouncer", plannedUnits := 0, peerUnits := 2,
    pgbRunning := true, sqlOk := true }

def backendDepartEvent : DepartedEvent :=
  { relationId := 3, departingIsLocal := false,
    departingApp := "postgresql-k8s" }

def backendDepartState : CharmState :=
  { iniFile := none, instFiles := [], peerCfg := none, authFile := some "af",
    peerAuthFile := some "af", secrets := [], unitDatabag := [],
    peerUsers := [], clientPorts := [], pgUsers := ["pgbouncer_auth_u5"],
    authFnDbs := [PGB, PG], monitoringEnabled := true,
    statusBlocked := false, writeCount := 0, restartCount := 0 }

/-- Counterexample to C4 as stated: a leader sees a unit of the backend
application depart with planned-unit count 0 — the claim says the revocation
path proceeds, yet the handler returns at the application check (the code
compares against the local application), leaving the auth user and the
installed auth functions in place. -/
theorem departed_revocation_gate_counterexample :
    backendDepartEvent.departingApp ≠ backendDepartInputs.charmApp ∧
    (onRelationDeparted backendDepartInputs backendDepartEvent
        backendDepartState).pgUsers = ["pgbouncer_auth_u5"] ∧
    (onRelationDeparted backendDepartInputs backendDepartEvent
        backendDepartState).authFnDbs = [PGB, PG] := by
  decide

/-- C4 (amended): for a departing unit other than the local replica, the
revocation path (auth-function removal and auth-user deletion) proceeds
exactly when the local replica is the leader, the departing unit belongs to
the local pgbouncer application, and the planned-unit count does not signal
a scale-down (P = 0 or P ≥ C); non-leaders, and departures of units of any
other application — the backend application included — return without
revoking. -/
theorem departed_revocation_gate (inp : Inputs) (ev : DepartedEvent)
    (st : CharmState) (hnl : ev.departingIsLocal = false)
    (hsql : inp.sqlOk = true) :
    (onRelationDeparted inp ev st).pgUsers =
      (if inp.isLeader = true ∧ ev.departingApp = inp.charmApp ∧
          (inp.plannedUnits = 0 ∨ inp.peerUnits ≤ inp.plannedUnits)
       then st.pgUsers.filter
         (fun u => !(u = authUserName ((inp.username).getD "")))
       else st.pgUsers) ∧
    (onRelationDeparted inp ev st).authFnDbs =
      (if inp.isLeader = true ∧ ev.departingApp = inp.charmApp ∧
          (inp.plannedUnits = 0 ∨ inp.peerUnits ≤ inp.plannedUnits)
       then st.authFnDbs.filter (fun d => !(d = PGB) && !(d = PG))
       else st.authFnDbs) := by
  obtain ⟨f1, f2, f3, f4, f5, f6, f7, f8, f9⟩ := departed_prefix_frame inp st
  by_cases hl : inp.isLeader = true
  · by_cases happ : ev.departingApp = inp.charmApp
    · by_cases hout : inp.plannedUnits = 0 ∨ inp.peerUnits ≤ inp.plannedUnits
      · obtain ⟨g1, g2⟩ := (departed_scale_down_disambiguation inp ev st hl
          hnl happ).2 hsql hout
        simp [hl, happ, hout, g1, g2]
      · push_neg at hout
        obtain ⟨h0, hc⟩ := hout
        have hp : 0 < inp.plannedUnits := Nat.pos_of_ne_zero h0
        have hlt : inp.plannedUnits < inp.peerUnits := hc
        obtain ⟨g1, g2, _⟩ := (departed_scale_down_disambiguation inp ev st hl
          hnl happ).1 hp hlt
        have hnle : ¬(inp.peerUnits ≤ inp.plannedUnits) := not_le.mpr hlt
        simp [hl, happ, h0, hnle, g1, g2]
    · have hnot : ¬(inp.isLeader = true ∧ ev.departingApp = inp.charmApp ∧
          (inp.plannedUnits = 0 ∨ inp.peerUnits ≤ inp.plannedUnits)) := by
        rintro ⟨-, hx, -⟩
        exact happ hx
      simp only [onRelationDeparted, hnl, hl, happ]
      simp [hnot, happ, f1, f2]
  · have hnot : ¬(inp.isLeader = true ∧ ev.departingApp = inp.charmApp ∧
        (inp.plannedUnits = 0 ∨ inp.peerUnits ≤ inp.plannedUnits)) := by
      rintro ⟨hx, -, -⟩
      exact hl hx
    have hlf : inp.isLeader = false := by
      cases h : inp.isLeader
      · rfl
      · exact absurd h hl
    simp only [onRelationDeparted, hnl, hlf]
    simp [hnot, f1, f2]

/-- Witness for the amended C4: a leader seeing a unit of its own
application depart with planned-unit count 0 does revoke. -/
theorem departed_revocation_gate_witness :
    (onRelationDeparted
        { isLeader := true, cores := 1, charmApp := "pgbouncer-k8s",
          listenPort := "6432", relPresent := true,
          endpoint := some "pg:5432", username := some "u5",
          password := some "p", localDatabase := some "pgbouncer",
          plannedUnits := 0, peerUnits := 2, pgbRunning := true,
          sqlOk := true }
        { relationId := 3, departingIsLocal := false,
          departingApp := "pgbouncer-k8s" }
        backendDepartState).pgUsers =
      (if (true = true ∧ ("pgbouncer-k8s" : String) = "pgbouncer-k8s" ∧
          ((0 : Nat) = 0 ∨ (2 : Nat) ≤ 0))
       then backendDepartState.pgUsers.filter
         (fun u => !(u = authUserName (some "u5" |>.getD "")))
       else backendDepartState.pgUsers) :=
  (departed_revocation_gate _ _ backendDepartState rfl rfl).1

/-! ## Claim C5: backend relation-broken teardown -/

/-- C5. On backend relation-broken the monitoring exporter ends up disabled
in every branch; when the departing flag for the relation was previously set
or the unit is not the leader, nothing else changes; otherwise (with a
readable canonical config) the relation user entry is removed, the
auth_user, auth_query and auth_file keys are gone from the re-rendered
canonical config, the credential file is deleted from the container and the
shared credential-file entry in peer state is cleared. -/
theorem broken_relation_teardown (inp : Inputs) (relId : Nat)
    (st : CharmState) (cfg : PgbConfig) (hc : st.iniFile = some cfg) :
    (onRelationBroken inp relId st).monitoringEnabled = false ∧
    (flagTruthy st.unitDatabag (departFlag relId) = true ∨ inp.isLeader = false →
      onRelationBroken inp relId st = { st with monitoringEnabled := false }) ∧
    (flagTruthy st.unitDatabag (departFlag relId) = false → inp.isLeader = true →
      (onRelationBroken inp relId st).authFile = none ∧
      (onRelationBroken inp relId st).peerAuthFile = none ∧
      ∃ cfg2, (onRelationBroken inp relId st).iniFile = some cfg2 ∧
        cfg2.users = alpop cfg.users ((inp.username).getD "") ∧
        alget cfg2.pgbouncer "auth_user" = none ∧
        alget cfg2.pgbouncer "auth_query" = none ∧
        alget cfg2.pgbouncer "auth_file" = none) := by
  by_cases hg : (flagTruthy st.unitDatabag (departFlag relId) || !inp.isLeader) = true
  · refine ⟨?_, ?_, ?_⟩
    · simp only [onRelationBroken]
      rw [if_pos (by simpa using hg)]
    · intro _
      simp only [onRelationBroken]
      rw [if_pos (by simpa using hg)]
    · intro hflag hlead
      rw [hflag, hlead] at hg
      simp at hg
  · have hflag : flagTruthy st.unitDatabag (departFlag relId) = false := by
      cases h : flagTruthy st.unitDatabag (departFlag relId)
      · rfl
      · exact absurd (by simp [h]) hg
    have hlead : inp.isLeader = true := by
      cases h : inp.isLeader
      · exact absurd (by simp [h]) hg
      · rfl
    have hres : onRelationBroken inp relId st =
        (let st0 : CharmState := { st with monitoringEnabled := false }
         let cfg1 := (cfg.removeUser ((inp.username).getD ""))
         let cfg2 := { cfg1 with
           pgbouncer := alpop (alpop (alpop cfg1.pgbouncer "auth_user")
             "auth_query") "auth_file" }
         let st1 := render_pgb_config inp cfg2 false st0
         { st1 with authFile := none, peerAuthFile := none }) := by
      simp only [onRelationBroken]
      rw [if_neg (by simp [hflag, hlead])]
      simp only [hc]
    refine ⟨?_, ?_, ?_⟩
    · rw [hres]
      have hf := render_frame inp
        { (cfg.removeUser ((inp.username).getD "")) with
          pgbouncer := alpop (alpop (alpop
            (cfg.removeUser ((inp.username).getD "")).pgbouncer "auth_user")
            "auth_query") "auth_file" } false
        { st with monitoringEnabled := false }
      simpa using hf.2.2.2.2.2.2.2.2.1
    · intro hx
      rcases hx with hx | hx
      · rw [hx] at hflag; cases hflag
      · rw [hx] at hlead; cases hlead
    · intro _ _
      rw [hres]
      refine ⟨rfl, rfl, ?_⟩
      refine ⟨{ (cfg.removeUser ((inp.username).getD "")) with
        pgbouncer := alpop (alpop (alpop
          (cfg.removeUser ((inp.username).getD "")).pgbouncer "auth_user")
          "auth_query") "auth_file" }, ?_, ?_, ?_, ?_, ?_⟩
      · simpa using render_iniFile inp _ false { st with monitoringEnabled := false }
      · rfl
      · show alget (alpop (alpop (alpop _ "auth_user") "auth_query") "auth_file")
          "auth_user" = none
        rw [alget_alpop, if_neg (by decide), alget_alpop, if_neg (by decide),
          alget_alpop, if_pos rfl]
      · show alget (alpop (alpop (alpop _ "auth_user") "auth_query") "auth_file")
          "auth_query" = none
        rw [alget_alpop, if_neg (by decide), alget_alpop, if_pos rfl]
      · show alget (alpop (alpop (alpop _ "auth_user") "auth_query") "auth_file")
          "auth_file" = none
        rw [alget_alpop, if_pos rfl]

/-- Witness for C5 at a concrete leader state without the departing flag:
the credential file and its shared entry are cleared. -/
theorem broken_relation_teardown_witness :
    (onRelationBroken
        { isLeader := true, cores := 1, charmApp := "pgbouncer-k8s",
          listenPort := "6432", relPresent := true,
          endpoint := some "pg:5432", username := some "u5",
          password := some "p", localDatabase := some "pgbouncer",
          plannedUnits := 1, peerUnits := 1, pgbRunning := true,
          sqlOk := true } 3
        { iniFile := some { pgbouncer := [("auth_query", "q"), ("auth_file", "f")], users := [("u5", "admin")], databases := [] },
          instFiles := [], peerCfg := none, authFile := some "af",
          peerAuthFile := some "af", secrets := [], unitDatabag := [],
          peerUsers := [], clientPorts := [], pgUsers := [], authFnDbs := [],
          monitoringEnabled := true, statusBlocked := false, writeCount := 0,
          restartCount := 0 }).authFile = none :=
  ((broken_relation_teardown _ 3 _
      { pgbouncer := [("auth_query", "q"), ("auth_file", "f")], users := [("u5", "admin")], databases := [] }
      rfl).2.2 (by decide) rfl).1

/-! ## Claim C6: database-created provisioning -/

/-- Absence of the newline character in a string. -/
def nlFree (s : String) : Prop :=
  Char.ofNat 10 ∉ s.data

instance nlFree.instDecidable (s : String) : Decidable (nlFree s) :=
  inferInstanceAs (Decidable (Char.ofNat 10 ∉ s.data))

/-- Number of newline characters in a string; a file whose content counts n
newlines has n + 1 lines. -/
def countNL (s : String) : Nat :=
  s.data.count (Char.ofNat 10)

theorem nlFree_append (a b : String) (ha : nlFree a) (hb : nlFree b) :
    nlFree (a ++ b) := by
  unfold nlFree at ha hb ⊢
  intro h
  rw [String.data_append] at h
  rcases List.mem_append.mp h with h | h
  · exact ha h
  · exact hb h

theorem nlFree_replaceDash (s : String) (h : nlFree s) :
    nlFree (replaceDash s) := by
  unfold nlFree at h ⊢
  unfold replaceDash
  intro hm
  simp only [String.toList] at hm
  rcases List.mem_map.mp hm with ⟨c, hc, he⟩
  by_cases hd : c = '-'
  · rw [hd] at he
    simp at he
  · rw [if_neg hd] at he
    exact h (he ▸ hc)

theorem countNL_append (a b : String) :
    countNL (a ++ b) = countNL a + countNL b := by
  unfold countNL
  rw [String.data_append, List.count_append]

theorem countNL_eq_zero (a : String) (h : nlFree a) : countNL a = 0 := by
  unfold countNL
  exact List.count_eq_zero.mpr h

theorem nlFree_credLine (u h : String) (hu : nlFree u) (hh : nlFree h) :
    nlFree (credLine u h) := by
  unfold credLine
  exact nlFree_append _ _ (nlFree_append _ _ (nlFree_append _ _
    (nlFree_append _ _ (by decide) hu) (by decide)) hh) (by decide)

/-- The endpoint refresh of `update_postgres_endpoints` only rewrites the
database section: the pgbouncer section of the canonical file survives. -/
theorem update_endpoints_pgbouncer (inp : Inputs) (r : Bool) (st : CharmState)
    (cfg : PgbConfig) (h : st.iniFile = some cfg) :
    ∃ cfg3, (update_postgres_endpoints inp r st).iniFile = some cfg3 ∧
      cfg3.pgbouncer = cfg.pgbouncer := by
  unfold update_postgres_endpoints
  by_cases hg : (!(postgresPresent inp) || !inp.isLeader) = true
  · rw [if_pos hg]
    exact ⟨cfg, h, rfl⟩
  · rw [if_neg hg]
    cases hep : inp.endpoint with
    | none =>
      by_cases hr : r <;> simp [h, hep, hr]
    | some ep =>
      refine ⟨refreshEndpoints ep cfg, ?_, rfl⟩
      have hini := render_iniFile inp (refreshEndpoints ep cfg) false st
      by_cases hr : r <;> simp [h, hep, hr, hini]

/-- C6. The database-created handler acts only on the leader; it defers
(rather than failing) while the pooler services are not reported running or
the remote endpoint/credentials or requested database name are absent; run
to completion it writes a credential file of exactly two lines — one for the
auth-bridging user, one for the monitoring user, each in the format
`"username" "hashed_password"` — and the re-rendered canonical config gains
the auth_query and auth_file keys. -/
theorem database_created_spec (inp : Inputs) (freshPw freshMonPw : String)
    (st : CharmState) :
    (inp.isLeader = false →
      onDatabaseCreated inp freshPw freshMonPw st = (HookOutcome.skipped, st)) ∧
    (inp.isLeader = true → inp.pgbRunning = false →
      onDatabaseCreated inp freshPw freshMonPw st = (HookOutcome.deferred, st)) ∧
    (inp.isLeader = true → inp.pgbRunning = true →
      (postgresPresent inp = false ∨ inp.localDatabase = none) →
      onDatabaseCreated inp freshPw freshMonPw st = (HookOutcome.deferred, st)) ∧
    (∀ cfg : PgbConfig, inp.isLeader = true → inp.pgbRunning = true →
      postgresPresent inp = true → (inp.localDatabase).isSome = true →
      inp.sqlOk = true → st.iniFile = some cfg →
      (onDatabaseCreated inp freshPw freshMonPw st).1 = HookOutcome.completed ∧
      (∃ h1 h2,
        (onDatabaseCreated inp freshPw freshMonPw st).2.authFile =
          some (credLine (authUserName ((inp.username).getD "")) h1 ++ "\n" ++
            credLine (statsUserName inp.charmApp) h2) ∧
        (nlFree ((inp.username).getD "") → nlFree inp.charmApp →
          nlFree freshPw → nlFree freshMonPw →
          (∀ v, alget st.secrets MONITORING_PASSWORD_KEY = some v → nlFree v) →
          countNL (credLine (authUserName ((inp.username).getD "")) h1 ++
            "\n" ++ credLine (statsUserName inp.charmApp) h2) = 1)) ∧
      (∃ cfg3, (onDatabaseCreated inp freshPw freshMonPw st).2.iniFile = some cfg3 ∧
        (alget cfg3.pgbouncer "auth_query").isSome = true ∧
        alget cfg3.pgbouncer "auth_file" = some AUTH_FILE_PATH)) := by
  refine ⟨?_, ?_, ?_, ?_⟩
  · intro hl
    simp [onDatabaseCreated, hl]
  · intro hl hr
    simp [onDatabaseCreated, hl, hr]
  · intro hl hr hor
    rcases hor with h | h <;> simp [onDatabaseCreated, hl, hr, h]
  · intro cfg hl hr hpg hdb hsql hcfg
    have hdbn : (inp.localDatabase).isNone = false := by
      cases h : inp.localDatabase
      · rw [h] at hdb; cases hdb
      · rfl
    have hres : onDatabaseCreated inp freshPw freshMonPw st =
        (HookOutcome.completed,
         { update_postgres_endpoints inp true
             (render_pgb_config inp
               (createdConfigUpdate
                 (cfg.addUser (statsUserName inp.charmApp) "stats")
                 (authUserName ((inp.username).getD "")))
               false
               { st with
                 pgUsers := authUserName ((inp.username).getD "") :: st.pgUsers
                 authFnDbs := PGB :: PG :: st.authFnDbs
                 secrets := alset (monitoringPasswordStep st.secrets freshMonPw).2
                   AUTH_FILE_DATABAG_KEY
                   (createdAuthFileContent inp freshPw freshMonPw st.secrets)
                 authFile :=
                   some (createdAuthFileContent inp freshPw freshMonPw st.secrets)
                 peerAuthFile :=
                   some (createdAuthFileContent inp freshPw freshMonPw st.secrets)
                 writeCount := st.writeCount + 1 }) with
           monitoringEnabled := true }) := by
      simp [onDatabaseCreated, hl, hr, hpg, hdbn, hsql, hcfg]
    refine ⟨by rw [hres], ?_, ?_⟩
    · refine ⟨get_hashed_password (authUserName ((inp.username).getD "")) freshPw,
        get_hashed_password (statsUserName inp.charmApp)
          (monitoringPasswordStep st.secrets freshMonPw).1, ?_, ?_⟩
      · rw [hres]
        show (update_postgres_endpoints inp true _).authFile = _
        rw [(update_endpoints_frame inp true _).1, (render_frame inp _ false _).1]
        rfl
      · intro hu hc hfp hfm hsec
        have hau : nlFree (authUserName ((inp.username).getD "")) :=
          nlFree_replaceDash _ (nlFree_append _ _ (by decide) hu)
        have hsu : nlFree (statsUserName inp.charmApp) :=
          nlFree_replaceDash _ (nlFree_append _ _ (by decide) hc)
        have hmp : nlFree (monitoringPasswordStep st.secrets freshMonPw).1 := by
          cases hms : alget st.secrets MONITORING_PASSWORD_KEY with
          | some v =>
            have : (monitoringPasswordStep st.secrets freshMonPw).1 = v := by
              simp [monitoringPasswordStep, hms]
            rw [this]
            exact hsec v hms
          | none =>
            have : (monitoringPasswordStep st.secrets freshMonPw).1 = freshMonPw := by
              simp [monitoringPasswordStep, hms]
            rw [this]
            exact hfm
        have hh1 : nlFree (get_hashed_password
            (authUserName ((inp.username).getD "")) freshPw) :=
          nlFree_append _ _ (nlFree_append _ _ (by decide) hfp) hau
        have hh2 : nlFree (get_hashed_password (statsUserName inp.charmApp)
            (monitoringPasswordStep st.secrets freshMonPw).1) :=
          nlFree_append _ _ (nlFree_append _ _ (by decide) hmp) hsu
        rw [countNL_append, countNL_append,
          countNL_eq_zero _ (nlFree_credLine _ _ hau hh1),
          countNL_eq_zero _ (nlFree_credLine _ _ hsu hh2)]
        decide
    · obtain ⟨cfg3, hini3, hpgb⟩ := update_endpoints_pgbouncer inp true
        (render_pgb_config inp
          (createdConfigUpdate (cfg.addUser (statsUserName inp.charmApp) "stats")
            (authUserName ((inp.username).getD "")))
          false
          { st with
            pgUsers := authUserName ((inp.username).getD "") :: st.pgUsers
            authFnDbs := PGB :: PG :: st.authFnDbs
            secrets := alset (monitoringPasswordStep st.secrets freshMonPw).2
              AUTH_FILE_DATABAG_KEY
              (createdAuthFileContent inp freshPw freshMonPw st.secrets)
            authFile :=
              some (createdAuthFileContent inp freshPw freshMonPw st.secrets)
            peerAuthFile :=
              some (createdAuthFileContent inp freshPw freshMonPw st.secrets)
            writeCount := st.writeCount + 1 })
        (createdConfigUpdate (cfg.addUser (statsUserName inp.charmApp) "stats")
          (authUserName ((inp.username).getD "")))
        (render_iniFile inp _ false _)
      refine ⟨cfg3, ?_, ?_, ?_⟩
      · rw [hres]
        exact hini3
      · rw [hpgb]
        show (alget (alset (alset _ "auth_query" _) "auth_file" AUTH_FILE_PATH)
          "auth_query").isSome = true
        rw [alget_alset, if_neg (by decide), alget_alset, if_pos rfl]
        rfl
      · rw [hpgb]
        show alget (alset (alset _ "auth_query" _) "auth_file" AUTH_FILE_PATH)
          "auth_file" = some AUTH_FILE_PATH
        rw [alget_alset, if_pos rfl]

/-- Concrete leader inputs with running services and full relation data. -/
def createdInputs : Inputs :=
  { isLeader := true, cores := 1, charmApp := "pgbouncer-k8s",
    listenPort := "6432", relPresent := true, endpoint := some "pg:5432",
    username := some "u5", password := some "p",
    localDatabase := some "pgbouncer", plannedUnits := 1, peerUnits := 1,
    pgbRunning := true, sqlOk := true }

/-- Concrete state with a readable canonical config and nothing provisioned. -/
def createdState : CharmState :=
  { iniFile := some defaultConfig, instFiles := [], peerCfg := none,
    authFile := none, peerAuthFile := none, secrets := [],
    unitDatabag := [], peerUsers := [], clientPorts := [], pgUsers := [],
    authFnDbs := [], monitoringEnabled := false, statusBlocked := false,
    writeCount := 0, restartCount := 0 }

/-- Witness for C6 at a concrete leader state with running services, full
relation data and a readable canonical config: the handler completes. -/
theorem database_created_spec_witness :
    (onDatabaseCreated createdInputs "fp" "mp" createdState).1 =
      HookOutcome.completed :=
  ((database_created_spec createdInputs "fp" "mp" createdState).2.2.2
    defaultConfig rfl rfl (by decide) rfl rfl rfl).1

/-! ## Claim C7: instance-set invariant -/

/-- C7. Instance-set invariant: the declared pooler service instances number
exactly the CPU core count detected at process start (the list is a pure
function of that count, so it never changes afterwards), and a rendered
per-instance config differs from the canonical config only in the
unix_socket_dir, logfile and pidfile fields: every other key of the
pgbouncer section, and the user and database sections, are identical. -/
theorem instance_set_invariant (cores : Nat) (cfg : PgbConfig) (i : Nat)
    (k : String) :
    (services cores).length = cores ∧
    (k ≠ "unix_socket_dir" → k ≠ "logfile" → k ≠ "pidfile" →
      alget (perInstanceCfg cfg i).pgbouncer k = alget cfg.pgbouncer k) ∧
    (perInstanceCfg cfg i).users = cfg.users ∧
    (perInstanceCfg cfg i).databases = cfg.databases := by
  refine ⟨by simp [services], ?_, rfl, rfl⟩
  intro h1 h2 h3
  have e1 : ¬ ("unix_socket_dir" = k) := fun hc => h1 hc.symm
  have e2 : ¬ ("logfile" = k) := fun hc => h2 hc.symm
  have e3 : ¬ ("pidfile" = k) := fun hc => h3 hc.symm
  simp [perInstanceCfg, alget_alset, e1, e2, e3]

/-- Witness for C7: two cores give two declared instances, and the
listen_port key of a per-instance config agrees with the canonical one. -/
theorem instance_set_invariant_witness :
    (services 2).length = 2 ∧
    alget (perInstanceCfg defaultConfig 0).pgbouncer "listen_port" =
      alget defaultConfig.pgbouncer "listen_port" :=
  ⟨(instance_set_invariant 2 defaultConfig 0 "listen_port").1,
   (instance_set_invariant 2 defaultConfig 0 "listen_port").2.1
     (by decide) (by decide) (by decide)⟩

/-! ## Claim C8: monitoring-password reuse -/

/-- C8. Monitoring-password reuse is idempotent: running the provisioning
step again after a first run — with any new candidate password — returns the
password of the first run and leaves the secret storage unchanged. -/
theorem monitoring_password_reuse (secrets : List (String × String))
    (fresh fresh1 : String) :
    monitoringPasswordStep (monitoringPasswordStep secrets fresh).2 fresh1 =
      ((monitoringPasswordStep secrets fresh).1,
       (monitoringPasswordStep secrets fresh).2) := by
  cases h : alget secrets MONITORING_PASSWORD_KEY with
  | some v => simp [monitoringPasswordStep, h]
  | none => simp [monitoringPasswordStep, h, alget_alset]

/-! ## Claim C9: config initialisation when no canonical config exists -/

/-- Config selection of `PgBouncerK8sCharm._init_config`: prefer the config
parsed from the container file, fall back to the peer databag copy; when the
result is falsy, the leader synthesizes the default config and followers
report failure (python returns False). -/
def initConfigChoice (localCfg peerCfg : Option PgbConfig) (isLeader : Bool) :
    Option PgbConfig :=
  let cand := match localCfg with
    | some c => some c
    | none => peerCfg
  match cand with
  | some c =>
    if c.truthy then some c
    else if isLeader then some defaultConfig else none
  | none => if isLeader then some defaultConfig else none

/-- Deferral decision of `_on_pgbouncer_pebble_ready`: the event is deferred
exactly when `_init_config` reports failure. -/
def pebbleReadyConfigDefers (localCfg peerCfg : Option PgbConfig)
    (isLeader : Bool) : Bool :=
  (initConfigChoice localCfg peerCfg isLeader).isNone

/-- C9. When no canonical config exists locally or in peer state, a leader
synthesizes the default config and succeeds while a non-leader reports
failure, which defers the triggering event; and initialisation never fails on
a leader (a missing config never propagates as an uncaught error: the only
failure outcome is the deferring non-leader one). -/
theorem init_config_missing (l p : Option PgbConfig) :
    (l = none → p = none →
      initConfigChoice l p true = some defaultConfig ∧
      initConfigChoice l p false = none ∧
      pebbleReadyConfigDefers l p false = true) ∧
    (∀ lead : Bool, (initConfigChoice l p lead).isNone = true → lead = false) := by
  constructor
  · intro hl hp
    subst hl; subst hp
    exact ⟨rfl, rfl, rfl⟩
  · intro lead h
    cases lead with
    | false => rfl
    | true =>
      exfalso
      cases l with
      | some c =>
        by_cases hc : c.truthy <;> simp [initConfigChoice, hc] at h
      | none =>
        cases p with
        | some c =>
          by_cases hc : c.truthy <;> simp [initConfigChoice, hc] at h
        | none => simp [initConfigChoice] at h

/-- Witness for C9 in the configless state: the leader gets the default, the
follower defers. -/
theorem init_config_missing_witness :
    initConfigChoice none none true = some defaultConfig ∧
    initConfigChoice none none false = none ∧
    pebbleReadyConfigDefers none none false = true :=
  (init_config_missing none none).1 rfl rfl

/-! ## Claim C10: backend-readiness invariant -/

/-- Translation of the `ready` property of BackendDatabaseRequires: requires
the postgres connection data, a readable canonical config whose pgbouncer
section holds an auth_query key, a readable auth file, and a successful smoke
query against the backend. -/
def backendReady (inp : Inputs) (st : CharmState) : Bool :=
  if !(postgresPresent inp) then false
  else
    match st.iniFile with
    | none => false
    | some cfg =>
      if (alget cfg.pgbouncer "auth_query").isNone then false
      else
        match st.authFile with
        | none => false
        | some _ => inp.sqlOk

/-- C10. Backend-readiness invariant: `ready` returns true only when the
relation supplies endpoint, username and password, the canonical config file
exists with an auth_query key in its pgbouncer section, and the credential
file exists — so whenever any of these is missing it returns false, and
ready = true always implies the canonical config references the auth query
and the credential file is present. -/
theorem backend_ready_invariant (inp : Inputs) (st : CharmState) :
    backendReady inp st = true →
      inp.relPresent = true ∧ inp.endpoint.isSome = true ∧
      inp.username.isSome = true ∧ inp.password.isSome = true ∧
      (∃ cfg, st.iniFile = some cfg ∧
        (alget cfg.pgbouncer "auth_query").isSome = true) ∧
      st.authFile.isSome = true := by
  intro h
  unfold backendReady at h
  by_cases hpg : postgresPresent inp
  · have hfields := hpg
    unfold postgresPresent at hfields
    simp only [Bool.and_eq_true] at hfields
    obtain ⟨⟨⟨hrel, hep⟩, hus⟩, hpw⟩ := hfields
    cases hini : st.iniFile with
    | none => rw [hini] at h; simp [hpg] at h
    | some cfg =>
      rw [hini] at h
      by_cases hq : (alget cfg.pgbouncer "auth_query").isNone
      · simp [hpg, hq] at h
      · cases haf : st.authFile with
        | none => rw [haf] at h; simp [hpg, hq] at h
        | some a =>
          refine ⟨hrel, hep, hus, hpw, ⟨cfg, rfl, ?_⟩, by simp [haf]⟩
          simpa [Option.isNone_iff_eq_none, ← Option.ne_none_iff_isSome] using hq
  · simp [hpg] at h

/-- Witness for C10 at a concrete ready state. -/
theorem backend_ready_invariant_witness :
    ({ isLeader := true, cores := 1, charmApp := "pgbouncer-k8s",
       listenPort := "6432", relPresent := true,
       endpoint := some "postgresql-k8s:5432", username := some "relation_18",
       password := some "pw", localDatabase := some "pgbouncer",
       plannedUnits := 1, peerUnits := 1, pgbRunning := true,
       sqlOk := true } : Inputs).relPresent = true ∧
    ({ iniFile := some { pgbouncer := [("auth_query", "q")], users := [], databases := [] },
       instFiles := [], peerCfg := none, authFile := some "af",
       peerAuthFile := none, secrets := [], unitDatabag := [],
       peerUsers := [], clientPorts := [], pgUsers := [], authFnDbs := [],
       monitoringEnabled := false, statusBlocked := false, writeCount := 0,
       restartCount := 0 } : CharmState).authFile.isSome = true := by
  have h := backend_ready_invariant
    { isLeader := true, cores := 1, charmApp := "pgbouncer-k8s",
      listenPort := "6432", relPresent := true,
      endpoint := some "postgresql-k8s:5432", username := some "relation_18",
      password := some "pw", localDatabase := some "pgbouncer",
      plannedUnits := 1, peerUnits := 1, pgbRunning := true, sqlOk := true }
    { iniFile := some { pgbouncer := [("auth_query", "q")], users := [], databases := [] },
      instFiles := [], peerCfg := none, authFile := some "af",
      peerAuthFile := none, secrets := [], unitDatabag := [],
      peerUsers := [], clientPorts := [], pgUsers := [], authFnDbs := [],
      monitoringEnabled := false, statusBlocked := false, writeCount := 0,
      restartCount := 0 }
    (by decide)
  exact ⟨h.1, h.2.2.2.2.2⟩

end PgbCharm
